import Mathlib

/-!
# Verification of the ghostpass core (ghostpass/ghostpass.py)

Shallow embedding of the `Ghostpass` class. Conventions:

- The source runs under Python 2 semantics (it uses `dict.iteritems`).
- `self.data` is a list of single-key dicts `{field: (username, password)}`;
  it is embedded as a list of triples `(field, username, secret)`.
- `GhostpassException.__init__` (lines 22-25) prints its message and calls
  `exit(1)`; raising it is therefore process termination with exit code 1,
  embedded as the outcome `Outcome.exits 1 msg`.
- An uncaught ordinary Python exception (TypeError, NameError) is embedded
  as `Outcome.raises exn` where `exn` is the exception class name.
- The module-level `global_mutex` acquire/release calls performed by an
  operation are recorded as a trace of `LockEvent`s.
- `crypto.AESHelper` lives in `ghostpass/crypto.py`, which is not present
  in the sources; it is modelled from the spec as an abstract pair of
  string functions (see `AESHelper`). `hashlib.sha512(...).hexdigest()` is
  standard-library code and is passed in as an uninterpreted function.
- The class attribute `uuid` (built from the external `names` library) and
  file input/output (`export`, the corpus `open` in `init_state`) are
  external collaborators and are not part of the embedded state.
-/

/-- Outcome of one core operation: normal return, process termination with
an exit code and printed message (the effect of raising GhostpassException,
whose constructor prints and calls exit(1)), or an uncaught ordinary Python
exception propagating to the caller. -/
inductive Outcome where
  | ok : Outcome
  | exits : Nat → String → Outcome
  | raises : String → Outcome
deriving DecidableEq

/-- Raising GhostpassException (ghostpass.py lines 22-25): the constructor
prints the message and calls exit(1), so the process terminates with exit
code 1. -/
def ghostpassException (msg : String) : Outcome := Outcome.exits 1 msg

/-- Events on the module-level lock `global_mutex` (ghostpass.py line 29). -/
inductive LockEvent where
  | acquire : LockEvent
  | release : LockEvent
deriving DecidableEq

/-- Modelled from the spec: `crypto.AESHelper` (ghostpass/crypto.py is not
among the sources). Per spec section 4.4 (FieldCipher) it encrypts and
decrypts individual field values with a key derived from the password
hash; here it is an abstract pair of total string functions, with the
round-trip law taken as a hypothesis where a claim needs it. -/
structure AESHelper where
  encrypt : String → String
  decrypt : String → String

/-- State of a `Ghostpass` object as set up by `__init__` (lines 37-44):
`password` holds `None` or the stored hash, `encrypted` is the global
flag, `data` is the list of single-key dicts embedded as triples
`(field, username, secret)`. -/
structure Ghostpass where
  password : Option String
  encrypted : Bool
  data : List (String × String × String)
deriving DecidableEq

/-- A freshly constructed session (`__init__`): no password, plaintext
flag, empty data. -/
def newGhostpass : Ghostpass :=
  { password := none, encrypted := false, data := [] }

/-- Embeds `_check_field_existence` (lines 99-108): scan every dict of
`self.data` and compare each key against `field`. -/
def check_field_existence (g : Ghostpass) (field : String) : Bool :=
  g.data.any (fun e => e.1 == field)

/-- Python truth of `password == "" or password == None` (lines 59, 61),
with `None` embedded as `Option.none`. -/
def strMissing : Option String → Bool
  | Option.none => true
  | Option.some s => s == ""

/-- Embeds `init_state` (lines 54-78). `h` stands for the standard-library
`hashlib.sha512(...).hexdigest()`; on success the hex digest of the
password is stored in `self.password` and the cleartext is deleted.
Construction of the AESHelper and the Markov model from the corpus file
(`crypto.MarkovHelper`, absent from the sources) touch no embedded state;
the corpus file read is external input assumed to succeed. -/
def init_state (h : String → String) (g : Ghostpass)
    (password corpus : Option String) : Outcome × Ghostpass :=
  if strMissing password then
    (ghostpassException "master password is not optional", g)
  else if strMissing corpus then
    (ghostpassException "corpus path is not optional", g)
  else
    (Outcome.ok, { g with password := Option.some (h (password.getD "")) })

/-- Embeds `view_field` (lines 111-128): raise (exit) if the field is
absent, otherwise collect every row `[key, value[0], value[1]]` whose key
matches. The `tabulate` rendering of those rows is display formatting, an
external collaborator per spec section 6, so the embedding returns the
rows themselves. -/
def view_field (g : Ghostpass) (field : String) :
    Outcome × List (String × String × String) :=
  if check_field_existence g field then
    (Outcome.ok, g.data.filter (fun e => e.1 == field))
  else
    (ghostpassException ("field " ++ field ++ " doesn\x27t exist!"), [])

/-- Embeds `view_all` (lines 131-136). The comprehension
`[[key, value[0], value[1]] for key, value in field.iteritems() for field in self.data]`
evaluates its first iterable `field.iteritems()` before the second
for-clause has bound `field`, so it raises an unbound-name error (class
NameError, as UnboundLocalError) on every call, before `self.data` is
even consulted; the table is never built. -/
def view_all (_g : Ghostpass) : Outcome :=
  Outcome.raises "NameError"

/-- Embeds `add_field` (lines 139-153): raise (exit) on a duplicate field
name, else append `{field: (username, password)}` under the global mutex.
The `except Exception: return 1` arm is unreachable because list append
does not raise. -/
def add_field (g : Ghostpass) (field username password : String) :
    Outcome × Ghostpass × List LockEvent :=
  if check_field_existence g field then
    (ghostpassException ("field " ++ field ++ " already exists!"), g, [])
  else
    (Outcome.ok,
     { g with data := g.data ++ [(field, username, password)] },
     [LockEvent.acquire, LockEvent.release])

/-- Embeds `remove_field` (lines 156-170): raise (exit) if the field is
absent, else keep exactly the dicts whose key differs from `field`, under
the global mutex. -/
def remove_field (g : Ghostpass) (field : String) :
    Outcome × Ghostpass × List LockEvent :=
  if check_field_existence g field then
    (Outcome.ok,
     { g with data := g.data.filter (fun e => !(e.1 == field)) },
     [LockEvent.acquire, LockEvent.release])
  else
    (ghostpassException ("field " ++ field ++ " doesn\x27t exist!"), g, [])

/-- Embeds `overwrite_field` (lines 173-185): raise (exit) if the field is
absent; otherwise the body executes `self.data[field] = (username, password)`,
indexing the list `self.data` with a string, which raises TypeError inside
the try block; the finally clause still releases the mutex and the
exception propagates with the collection unmodified. -/
def overwrite_field (g : Ghostpass) (field _username _password : String) :
    Outcome × Ghostpass × List LockEvent :=
  if check_field_existence g field then
    (Outcome.raises "TypeError", g, [LockEvent.acquire, LockEvent.release])
  else
    (ghostpassException ("field " ++ field ++ " doesn\x27t exist!"), g, [])

/-- Embeds `encrypt_fields` (lines 188-195): for every dict, replace the
value pair by its AES encryption componentwise (keys untouched), then set
`self.encrypted = True`. No guard checks the current flag and no lock is
taken. -/
def encrypt_fields (aes : AESHelper) (g : Ghostpass) : Ghostpass :=
  { g with
    data := g.data.map (fun e => (e.1, aes.encrypt e.2.1, aes.encrypt e.2.2)),
    encrypted := true }

/-- Embeds `decrypt_fields` (lines 198-205): componentwise AES decryption
of every value pair, then `self.encrypted = False`. -/
def decrypt_fields (aes : AESHelper) (g : Ghostpass) : Ghostpass :=
  { g with
    data := g.data.map (fun e => (e.1, aes.decrypt e.2.1, aes.decrypt e.2.2)),
    encrypted := false }

/-- Embeds `decode_file` (lines 216-221): despite its docstring, the body
is `return 0`, for every ciphertext argument. -/
def decode_file (_ciphertext : String) : Nat := 0

/-- A concrete instance of the abstract cipher used for evaluation: it
prepends the two characters `E` and `:` and decryption drops them, so the
round-trip law holds and ciphertexts are syntactically recognizable. -/
def markerAes : AESHelper :=
  { encrypt := fun s => "E:" ++ s,
    decrypt := fun s => ⟨s.data.drop 2⟩ }

/-- Recognizes a `markerAes` ciphertext by its two leading characters. -/
def isMarked (s : String) : Bool :=
  match s.data with
  | 'E' :: ':' :: _ => true
  | _ => false

/-- The uniformity invariant of spec section 3, relative to a test `isCt`
for being a ciphertext: if the global flag is set, every stored value is
ciphertext; if it is clear, none is. -/
def uniform (isCt : String → Bool) (g : Ghostpass) : Bool :=
  if g.encrypted then
    g.data.all (fun e => isCt e.2.1 && isCt e.2.2)
  else
    g.data.all (fun e => !isCt e.2.1 && !isCt e.2.2)

/-- A plaintext session with one entry, for concrete evaluations. -/
def gPlain : Ghostpass :=
  { password := none, encrypted := false, data := [("a", "u", "s")] }

/-- An encrypted session (the image of `gPlain` under
`encrypt_fields markerAes`), for concrete evaluations. -/
def gEnc : Ghostpass :=
  { password := none, encrypted := true, data := [("a", "E:u", "E:s")] }

/-- A plaintext session holding the section 8 scenario entry. -/
def gEmail : Ghostpass :=
  { password := none, encrypted := false,
    data := [("email", "a@b.com", "secret123")] }

/-- The marker cipher satisfies the round-trip law. -/
theorem markerAes_roundtrip : ∀ s, markerAes.decrypt (markerAes.encrypt s) = s := by
  intro s
  cases s with
  | mk d => rfl

/-- C1: for every vault whose entries are in plaintext state, running
`encrypt_fields` and then `decrypt_fields` with the session cipher
restores the whole session, hence every field name, username value and
secret value, to its exact original plaintext value (and the flag to
false), given the cipher round-trip law of spec section 4.4. -/
theorem encrypt_then_decrypt_roundtrip (aes : AESHelper)
    (hrt : ∀ s, aes.decrypt (aes.encrypt s) = s)
    (g : Ghostpass) (henc : g.encrypted = false) :
    decrypt_fields aes (encrypt_fields aes g) = g := by
  obtain ⟨pw, enc, data⟩ := g
  obtain rfl : enc = false := henc
  simp only [encrypt_fields, decrypt_fields, List.map_map, Ghostpass.mk.injEq,
    true_and]
  induction data with
  | nil => rfl
  | cons e t ih =>
    obtain ⟨k, u, s⟩ := e
    simp [Function.comp, hrt, ih]

/-- Witness for C1 at the section 8 scenario entry with the concrete
marker cipher. -/
theorem encrypt_then_decrypt_roundtrip_witness :
    decrypt_fields markerAes (encrypt_fields markerAes gEmail) = gEmail :=
  encrypt_then_decrypt_roundtrip markerAes markerAes_roundtrip gEmail rfl

/-- C2: `decode_file` returns the integer 0 for every ciphertext, so the
stego decode can never return the encoded payload bytes; the body
contradicts its own docstring, which promises decryption of the generated
text back to cleartext. -/
theorem decode_file_returns_zero (c : String) : decode_file c = 0 := rfl

/-- C3, counterexample: an error path inside the core does terminate the
process. Calling `init_state` with password None raises
GhostpassException, whose constructor prints and calls exit(1): the
outcome is process termination with exit code 1, not a recoverable typed
failure. -/
theorem core_error_terminates_cex :
    (init_state (fun s => s) newGhostpass none (some "corpus.txt")).1 =
      Outcome.exits 1 "master password is not optional" := rfl

/-- C3 as amended: every domain-error path of the core raises
GhostpassException and therefore ends the process with exit code 1
(printing the message) instead of returning a typed failure to the
caller. -/
theorem core_errors_exit_process (h : String → String) (g : Ghostpass)
    (f u p : String) (c : Option String) :
    ((init_state h g none c).1 =
        Outcome.exits 1 "master password is not optional")
    ∧ ((init_state h g (some "") c).1 =
        Outcome.exits 1 "master password is not optional")
    ∧ (check_field_existence g f = true →
        (add_field g f u p).1 =
          Outcome.exits 1 ("field " ++ f ++ " already exists!"))
    ∧ (check_field_existence g f = false →
        (remove_field g f).1 =
          Outcome.exits 1 ("field " ++ f ++ " doesn\x27t exist!"))
    ∧ (check_field_existence g f = false →
        (overwrite_field g f u p).1 =
          Outcome.exits 1 ("field " ++ f ++ " doesn\x27t exist!"))
    ∧ (check_field_existence g f = false →
        (view_field g f).1 =
          Outcome.exits 1 ("field " ++ f ++ " doesn\x27t exist!")) := by
  refine ⟨rfl, rfl, ?_, ?_, ?_, ?_⟩ <;> intro hc <;>
    simp [add_field, remove_field, overwrite_field, view_field,
      ghostpassException, hc]

/-- Witness for C3 as amended: concrete erroneous inputs for a duplicate
add, a missing-field remove and a missing-field view all end in process
exit. -/
theorem core_errors_exit_process_witness :
    ((add_field gPlain "a" "x" "y").1 =
        Outcome.exits 1 ("field " ++ "a" ++ " already exists!"))
    ∧ ((remove_field newGhostpass "b").1 =
        Outcome.exits 1 ("field " ++ "b" ++ " doesn\x27t exist!"))
    ∧ ((view_field newGhostpass "b").1 =
        Outcome.exits 1 ("field " ++ "b" ++ " doesn\x27t exist!")) :=
  ⟨(core_errors_exit_process (fun s => s) gPlain "a" "x" "y" none).2.2.1
      (by decide),
   (core_errors_exit_process (fun s => s) newGhostpass "b" "x" "y" none).2.2.2.1
      (by decide),
   (core_errors_exit_process (fun s => s) newGhostpass "b" "x" "y" none).2.2.2.2.2
      (by decide)⟩

/-- C10: `view_all` raises a NameError (as its subclass
UnboundLocalError) on every session state, the empty vault included,
because the comprehension evaluates `field.iteritems()` before `field` is
bound; it can never return a table. -/
theorem view_all_always_raises (g : Ghostpass) :
    view_all g = Outcome.raises "NameError" := rfl

/-- C4, counterexample: `add_field` on an encrypted session leaves a mixed
collection. Starting from the uniformly encrypted session `gEnc` (flag
true, every value a marker ciphertext), adding a field succeeds, yet the
resulting session has the flag still true while the new entry holds the
untransformed plaintext values, so the uniformity invariant is broken. -/
theorem add_field_breaks_uniformity_cex :
    uniform isMarked gEnc = true
    ∧ (add_field gEnc "b" "x" "y").1 = Outcome.ok
    ∧ uniform isMarked (add_field gEnc "b" "x" "y").2.1 = false := by
  decide

/-- C4 as amended: `encrypt_fields` and `decrypt_fields` transform every
entry through the field cipher and set the flag afterwards (true and false
respectively), but `add_field` always appends the given values
untransformed and leaves the flag unchanged, so on an encrypted session it
produces a mixed collection and the uniformity invariant is not preserved
by every operation. -/
theorem flag_flips_after_full_pass (aes : AESHelper) (g : Ghostpass)
    (f u p : String) :
    ((encrypt_fields aes g).encrypted = true
      ∧ (encrypt_fields aes g).data =
          g.data.map (fun e => (e.1, aes.encrypt e.2.1, aes.encrypt e.2.2)))
    ∧ ((decrypt_fields aes g).encrypted = false
      ∧ (decrypt_fields aes g).data =
          g.data.map (fun e => (e.1, aes.decrypt e.2.1, aes.decrypt e.2.2)))
    ∧ (check_field_existence g f = false →
        (add_field g f u p).2.1.encrypted = g.encrypted
        ∧ (add_field g f u p).2.1.data = g.data ++ [(f, u, p)]) := by
  refine ⟨⟨rfl, rfl⟩, ⟨rfl, rfl⟩, ?_⟩
  intro hc
  simp [add_field, hc]

/-- Witness for C4 as amended: on the concrete plaintext session `gPlain`,
the encrypt pass sets the flag and a non-duplicate add appends the
plaintext entry. -/
theorem flag_flips_after_full_pass_witness :
    (encrypt_fields markerAes gPlain).encrypted = true
    ∧ (add_field gPlain "b" "x" "y").2.1.data = gPlain.data ++ [("b", "x", "y")] :=
  ⟨(flag_flips_after_full_pass markerAes gPlain "b" "x" "y").1.1,
   ((flag_flips_after_full_pass markerAes gPlain "b" "x" "y").2.2 (by decide)).2⟩

/-- C5: `add_field` fails with the duplicate-field error exactly when the
field name already exists, and `remove_field`, `overwrite_field` and
`view_field` each fail with the not-found error exactly when it does not
(where a failure is the GhostpassException outcome with the corresponding
message). -/
theorem field_errors_exactly_when (g : Ghostpass) (f u p : String) :
    ((add_field g f u p).1 =
        ghostpassException ("field " ++ f ++ " already exists!")
      ↔ check_field_existence g f = true)
    ∧ ((remove_field g f).1 =
        ghostpassException ("field " ++ f ++ " doesn\x27t exist!")
      ↔ check_field_existence g f = false)
    ∧ ((overwrite_field g f u p).1 =
        ghostpassException ("field " ++ f ++ " doesn\x27t exist!")
      ↔ check_field_existence g f = false)
    ∧ ((view_field g f).1 =
        ghostpassException ("field " ++ f ++ " doesn\x27t exist!")
      ↔ check_field_existence g f = false) := by
  cases hc : check_field_existence g f <;>
    simp [add_field, remove_field, overwrite_field, view_field,
      ghostpassException, hc]

/-- C6, counterexample: calling `encrypt_fields` on the already-encrypted
session `gEnc` is neither a no-op nor an error: it returns normally with a
changed state in which every value has been passed through the cipher a
second time. -/
theorem encrypt_twice_not_noop_cex :
    encrypt_fields markerAes gEnc ≠ gEnc
    ∧ (encrypt_fields markerAes gEnc).data = [("a", "E:E:u", "E:E:s")] := by
  decide

/-- C6 as amended: `encrypt_fields` on an already-encrypted session
silently applies the field cipher again to every already-encrypted value
and leaves the flag true; it neither skips the pass nor raises an
error. -/
theorem encrypt_fields_double_encrypts (aes : AESHelper) (g : Ghostpass)
    (_henc : g.encrypted = true) :
    (encrypt_fields aes g).encrypted = true
    ∧ (encrypt_fields aes g).data =
        g.data.map (fun e => (e.1, aes.encrypt e.2.1, aes.encrypt e.2.2)) :=
  ⟨rfl, rfl⟩

/-- Witness for C6 as amended at the concrete encrypted session. -/
theorem encrypt_fields_double_encrypts_witness :
    (encrypt_fields markerAes gEnc).encrypted = true
    ∧ (encrypt_fields markerAes gEnc).data =
        gEnc.data.map
          (fun e => (e.1, markerAes.encrypt e.2.1, markerAes.encrypt e.2.2)) :=
  encrypt_fields_double_encrypts markerAes gEnc rfl

/-- C7: `init_state` exits with the missing-password message when the
password is None or empty, exits with the missing-corpus message when the
password is present but the corpus is None or empty, and otherwise
succeeds storing exactly the wide digest `h` of the password (standing for
the SHA-512 hex digest, computed once) in the password slot, never the
cleartext. -/
theorem init_state_behavior (h : String → String) (g : Ghostpass)
    (password corpus : Option String) :
    (strMissing password = true →
      init_state h g password corpus =
        (ghostpassException "master password is not optional", g))
    ∧ (strMissing password = false → strMissing corpus = true →
      init_state h g password corpus =
        (ghostpassException "corpus path is not optional", g))
    ∧ (∀ pw, password = some pw → strMissing password = false →
        strMissing corpus = false →
      init_state h g password corpus =
        (Outcome.ok, { g with password := some (h pw) })) := by
  refine ⟨fun hp => ?_, fun hp hcc => ?_, fun pw hpw hp hcc => ?_⟩
  · simp [init_state, hp]
  · simp [init_state, hp, hcc]
  · subst hpw
    simp [init_state, hp, hcc]

/-- Witness for C7: the three branches at concrete inputs, with a concrete
stand-in digest function. -/
theorem init_state_behavior_witness :
    (init_state (fun s => "h" ++ s) newGhostpass none (some "c") =
      (ghostpassException "master password is not optional", newGhostpass))
    ∧ (init_state (fun s => "h" ++ s) newGhostpass (some "pw") none =
      (ghostpassException "corpus path is not optional", newGhostpass))
    ∧ (init_state (fun s => "h" ++ s) newGhostpass (some "pw") (some "c") =
      (Outcome.ok, { newGhostpass with password := some ("h" ++ "pw") })) :=
  ⟨(init_state_behavior (fun s => "h" ++ s) newGhostpass none (some "c")).1
      rfl,
   (init_state_behavior (fun s => "h" ++ s) newGhostpass (some "pw") none).2.1
      rfl rfl,
   (init_state_behavior (fun s => "h" ++ s) newGhostpass (some "pw")
      (some "c")).2.2 "pw" rfl rfl rfl⟩

/-- C8: for every session containing an entry `(f, u, p)`, `view_field f`
returns normally and its rows contain that entry in its current
representation; in particular, in the section 8 scenario, after adding
`("email", "a@b.com", "secret123")` to a fresh plaintext session,
`view_field "email"` returns exactly that tuple as its single row. -/
theorem view_field_returns_current_entry :
    (∀ (g : Ghostpass) (f u p : String), (f, u, p) ∈ g.data →
        (view_field g f).1 = Outcome.ok ∧ (f, u, p) ∈ (view_field g f).2)
    ∧ (add_field newGhostpass "email" "a@b.com" "secret123").2.1 = gEmail
    ∧ view_field gEmail "email" =
        (Outcome.ok, [("email", "a@b.com", "secret123")]) := by
  refine ⟨fun g f u p hmem => ?_, by decide, by decide⟩
  have hc : check_field_existence g f = true := by
    simp only [check_field_existence, List.any_eq_true]
    exact ⟨(f, u, p), hmem, by simp⟩
  constructor
  · simp [view_field, hc]
  · simp only [view_field, hc, if_pos, List.mem_filter]
    exact ⟨hmem, by simp⟩

/-- Witness for C8 at the concrete scenario session. -/
theorem view_field_returns_current_entry_witness :
    (view_field gEmail "email").1 = Outcome.ok
    ∧ ("email", "a@b.com", "secret123") ∈ (view_field gEmail "email").2 :=
  view_field_returns_current_entry.1 gEmail "email" "a@b.com" "secret123"
    (by decide)

/-- C9: whenever the named field exists, `overwrite_field` raises a
TypeError (it indexes the list `self.data` with a string key), returns no
update, leaves the field collection unchanged and releases the mutex. -/
theorem overwrite_field_raises_typeerror (g : Ghostpass) (f u p : String)
    (hex : check_field_existence g f = true) :
    overwrite_field g f u p =
      (Outcome.raises "TypeError", g, [LockEvent.acquire, LockEvent.release]) := by
  simp [overwrite_field, hex]

/-- Witness for C9 at a concrete session holding the field. -/
theorem overwrite_field_raises_typeerror_witness :
    overwrite_field gPlain "a" "x" "y" =
      (Outcome.raises "TypeError", gPlain,
        [LockEvent.acquire, LockEvent.release]) :=
  overwrite_field_raises_typeerror gPlain "a" "x" "y" (by decide)
